import Mathlib

/-!
Verification of the JLCPCB parts MCP server (`server.py`).

The development shallowly embeds the pure core of the server:
the filter compiler of `search_parts` (WHERE-clause and parameter
construction), the row presenter (price-tier and attribute rendering of
the embedded JSON sub-documents), the image selector of
`get_part_image` (middle-entry selection and extension normalization),
and the lookup operation `get_datasheet_url`.

External library behaviour at the boundary (Python's `json.loads`,
`str()` formatting, `urllib.parse.urlparse`, `os.path.splitext`,
dict/list subscription and iteration) is modelled explicitly so that the
embedded functions evaluate on concrete inputs.
-/

set_option autoImplicit false

namespace JlcpcbParts

/-! ## JSON values

A parsed JSON document, as Python's `json.loads` would produce it.
Numbers are carried as the decimal text Python's `str()` would print
for the parsed value (the server never computes with numbers, it only
formats them).  Objects are entry lists in insertion order, as Python
dicts preserve insertion order; `json.loads` never produces duplicate
keys (a repeated key keeps the last occurrence). -/
inductive Json where
  | null
  | bool (b : Bool)
  | num (s : String)
  | str (s : String)
  | arr (elems : List Json)
  | obj (entries : List (String × Json))

/-! Python `str()` of a value; containers print their elements with
`repr`, and `repr` of a string adds single quotes (escaping inside the
quoted text is not modelled; no claim depends on it). -/

mutual

def pythonStr : Json → String
  | .null => "None"
  | .bool b => if b then "True" else "False"
  | .num s => s
  | .str s => s
  | .arr xs => "[" ++ pythonReprSeq xs ++ "]"
  | .obj kvs => "\x7b" ++ pythonReprEntries kvs ++ "\x7d"

def pythonRepr : Json → String
  | .null => "None"
  | .bool b => if b then "True" else "False"
  | .num s => s
  | .str s => "\x27" ++ s ++ "\x27"
  | .arr xs => "[" ++ pythonReprSeq xs ++ "]"
  | .obj kvs => "\x7b" ++ pythonReprEntries kvs ++ "\x7d"

def pythonReprSeq : List Json → String
  | [] => ""
  | [x] => pythonRepr x
  | x :: y :: xs => pythonRepr x ++ ", " ++ pythonReprSeq (y :: xs)

def pythonReprEntries : List (String × Json) → String
  | [] => ""
  | [(k, v)] => "\x27" ++ k ++ "\x27: " ++ pythonRepr v
  | (k, v) :: e :: kvs =>
      "\x27" ++ k ++ "\x27: " ++ pythonRepr v ++ ", " ++ pythonReprEntries (e :: kvs)

end

/-- Python `value[key]` with a string key: succeeds only on a dict that
holds the key (`KeyError` otherwise); any non-dict raises `TypeError`. -/
def pyGetItemStr (j : Json) (k : String) : Except String Json :=
  match j with
  | .obj kvs =>
      match List.lookup k kvs with
      | some v => .ok v
      | none => .error ("KeyError: " ++ k)
  | _ => .error "TypeError: value is not subscriptable by a string key"

/-- Python `value[i]` with a non-negative integer index: list and string
indexing succeed in range (`IndexError` otherwise); a dict looks the
integer up among its keys, which are strings, so it raises `KeyError`;
other values raise `TypeError`. -/
def pyIndex (j : Json) (i : Nat) : Except String Json :=
  match j with
  | .arr xs =>
      match xs.get? i with
      | some v => .ok v
      | none => .error "IndexError: list index out of range"
  | .str s =>
      match s.data.get? i with
      | some c => .ok (.str (String.mk [c]))
      | none => .error "IndexError: string index out of range"
  | .obj _ => .error "KeyError: integer key"
  | _ => .error "TypeError: value is not subscriptable"

/-- Python `for x in value`: a list yields its elements, a string its
one-character substrings, a dict its keys; other values raise
`TypeError`. -/
def pyIter (j : Json) : Except String (List Json) :=
  match j with
  | .arr xs => .ok xs
  | .str s => .ok (s.data.map fun c => .str (String.mk [c]))
  | .obj kvs => .ok (kvs.map fun kv => .str kv.1)
  | _ => .error "TypeError: value is not iterable"

/-- Python `value.values()`: only a dict has it. -/
def pyValues (j : Json) : Except String (List Json) :=
  match j with
  | .obj kvs => .ok (kvs.map Prod.snd)
  | _ => .error "AttributeError: value has no attribute values"

/-- Python `value.items()`: only a dict has it. -/
def pyItems (j : Json) : Except String (List (String × Json)) :=
  match j with
  | .obj kvs => .ok kvs
  | _ => .error "AttributeError: value has no attribute items"

/-- Python `len(value)` for the container values. -/
def pyLen (j : Json) : Except String Nat :=
  match j with
  | .arr xs => .ok xs.length
  | .str s => .ok s.length
  | .obj kvs => .ok kvs.length
  | _ => .error "TypeError: value has no len"

/-- Python `lst[i]` on an already-materialized list of values. -/
def pyListIndex (l : List Json) (i : Nat) : Except String Json :=
  match l.get? i with
  | some v => .ok v
  | none => .error "IndexError: list index out of range"

/-- Python `sep.join(parts)`. -/
def pyJoin (sep : String) : List String → String
  | [] => ""
  | [x] => x
  | x :: y :: xs => x ++ sep ++ pyJoin sep (y :: xs)

/-! ## Filter compiler (`search_parts`, query construction)

`SearchQuery` mirrors the pydantic model: `category_id` is mandatory,
every other field defaults to the `None` sentinel. -/

/-- A value bound into the parameterized SQL query, or stored in a
fetched row cell.  `null` renders as Python prints `None`. -/
inductive SqlValue where
  | int (i : Int)
  | text (s : String)
  | null
deriving DecidableEq

structure SearchQuery where
  category_id : Int
  manufacturer_id : Option Int := none
  manufacturer_pn : Option String := none
  description : Option String := none
  package : Option String := none
  is_basic_parts : Option Bool := none
  is_preferred_parts : Option Bool := none

/-- The fixed head of the generated query text, up to and including
`WHERE `. -/
def sqlSelectHead : String :=
  "SELECT lcsc,category_id,manufacturer_id,mfr,basic,preferred,description,package,stock,price,extra FROM components WHERE "

/-- `if search_query.manufacturer_id is not None:` appends one clause
and one bound parameter. -/
def midFrag : Option Int → List String × List SqlValue
  | some i => (["manufacturer_id=?"], [.int i])
  | none => ([], [])

/-- `if search_query.manufacturer_pn:` — Python truthiness: the `None`
sentinel and the empty string both skip the branch. -/
def pnFrag : Option String → List String × List SqlValue
  | some s => if s != "" then (["mfr LIKE ?"], [.text s]) else ([], [])
  | none => ([], [])

/-- `if search_query.description:` (truthiness, as for
`manufacturer_pn`). -/
def descFrag : Option String → List String × List SqlValue
  | some s => if s != "" then (["description LIKE ?"], [.text s]) else ([], [])
  | none => ([], [])

/-- `if search_query.package:` (truthiness). -/
def pkgFrag : Option String → List String × List SqlValue
  | some s => if s != "" then (["package=?"], [.text s]) else ([], [])
  | none => ([], [])

/-- `if search_query.is_basic_parts is not None:` renders the boolean
into the clause text as `1`/`0` and binds no parameter. -/
def basicFrag : Option Bool → List String × List SqlValue
  | some b => (["basic=" ++ (if b then "1" else "0")], [])
  | none => ([], [])

/-- Same for `is_preferred_parts`. -/
def prefFrag : Option Bool → List String × List SqlValue
  | some b => (["preferred=" ++ (if b then "1" else "0")], [])
  | none => ([], [])

/-- The `where_clauses` list built by `search_parts`, in source order:
the `category_id` clause unconditionally first, then one clause per
taken optional-field branch. -/
def whereClauses (q : SearchQuery) : List String :=
  ["category_id=?"]
    ++ (midFrag q.manufacturer_id).1
    ++ (pnFrag q.manufacturer_pn).1
    ++ (descFrag q.description).1
    ++ (pkgFrag q.package).1
    ++ (basicFrag q.is_basic_parts).1
    ++ (prefFrag q.is_preferred_parts).1

/-- The `params` list built by `search_parts`, in source order. -/
def queryParams (q : SearchQuery) : List SqlValue :=
  [SqlValue.int q.category_id]
    ++ (midFrag q.manufacturer_id).2
    ++ (pnFrag q.manufacturer_pn).2
    ++ (descFrag q.description).2
    ++ (pkgFrag q.package).2
    ++ (basicFrag q.is_basic_parts).2
    ++ (prefFrag q.is_preferred_parts).2

/-- The final query text: `query += ' AND '.join(where_clauses)`. -/
def queryText (q : SearchQuery) : String :=
  sqlSelectHead ++ pyJoin " AND " (whereClauses q)

/-- Number of `?` placeholders in a piece of query text. -/
def countQ (s : String) : Nat :=
  s.data.count '?'

/-- Python truthiness of an optional string field: `None` and `""` are
falsy. -/
def optTruthyStr : Option String → Bool
  | some s => s != ""
  | none => false

/-- The number of optional fields the compiler treats as set: present
(`is not None`) for `manufacturer_id` and the two booleans, present and
non-empty (truthy) for the three text fields. -/
def numSetCode (q : SearchQuery) : Nat :=
  (if q.manufacturer_id.isSome then 1 else 0)
    + (if optTruthyStr q.manufacturer_pn then 1 else 0)
    + (if optTruthyStr q.description then 1 else 0)
    + (if optTruthyStr q.package then 1 else 0)
    + (if q.is_basic_parts.isSome then 1 else 0)
    + (if q.is_preferred_parts.isSome then 1 else 0)

/-- Every clause the compiler can ever emit. -/
def clauseUniverse : List String :=
  ["category_id=?", "manufacturer_id=?", "mfr LIKE ?", "description LIKE ?",
   "package=?", "basic=1", "basic=0", "preferred=1", "preferred=0"]

/-- The part of a filter record the generated query text can depend on:
which optional fields are taken, and the boolean values (which are
rendered into the text).  No free-text or integer field value occurs. -/
structure QueryMask where
  mid : Bool
  pn : Bool
  dsc : Bool
  pkg : Bool
  basic : Option Bool
  preferred : Option Bool

def maskOf (q : SearchQuery) : QueryMask :=
  ⟨q.manufacturer_id.isSome, optTruthyStr q.manufacturer_pn,
   optTruthyStr q.description, optTruthyStr q.package,
   q.is_basic_parts, q.is_preferred_parts⟩

/-- Query text reconstructed from the mask alone. -/
def queryTextOfMask (m : QueryMask) : String :=
  sqlSelectHead ++ pyJoin " AND "
    (["category_id=?"]
      ++ (if m.mid then ["manufacturer_id=?"] else [])
      ++ (if m.pn then ["mfr LIKE ?"] else [])
      ++ (if m.dsc then ["description LIKE ?"] else [])
      ++ (if m.pkg then ["package=?"] else [])
      ++ (match m.basic with
          | some b => ["basic=" ++ (if b then "1" else "0")]
          | none => [])
      ++ (match m.preferred with
          | some b => ["preferred=" ++ (if b then "1" else "0")]
          | none => []))

/-! ## Row presenter (`search_parts`, result rendering)

A fetched `components` row.  The nine leading scalar cells are SQL
values; `price` and `extra` are the embedded JSON columns, modelled by
the outcome of `json.loads` on the stored text: `none` when parsing
raised (malformed text, empty text, or a NULL column), `some j`
otherwise. -/
structure Row where
  lcsc : SqlValue
  category_id : SqlValue
  manufacturer_id : SqlValue
  mfr : SqlValue
  basic : SqlValue
  preferred : SqlValue
  descr : SqlValue
  package : SqlValue
  stock : SqlValue
  price : Option Json
  extra : Option Json

/-- Python `str()` of a row cell as the f-string interpolates it. -/
def sqlCellStr : SqlValue → String
  | .int i => toString i
  | .text s => s
  | .null => "None"

/-- Inside a tier dict, `None` bounds were overwritten with the empty
string before formatting. -/
def noneToEmpty (j : Json) : Json :=
  match j with
  | .null => .str ""
  | _ => j

/-- One loop iteration of the price conversion: read the three keys of
the tier (a `KeyError` or a non-dict tier raises) and format
`f"..."` as `qFrom-qTo price` followed by `USD/pc`. -/
def renderTier (p : Json) : Except String String := do
  let qF ← pyGetItemStr p "qFrom"
  let qT ← pyGetItemStr p "qTo"
  let pr ← pyGetItemStr p "price"
  .ok (pythonStr (noneToEmpty qF) ++ "-" ++ pythonStr (noneToEmpty qT)
        ++ " " ++ pythonStr pr ++ "USD/pc")

/-- The price loop: renders the tiers one after another, stopping at
the first raised exception. -/
def mapTiers : List Json → Except String (List String)
  | [] => .ok []
  | t :: ts => do
      let s ← renderTier t
      let rest ← mapTiers ts
      .ok (s :: rest)

/-- The whole `try` body for the price cell: `json.loads`, the loop
over the parsed value, and `', '.join`. -/
def priceChain (field : Option Json) : Except String String := do
  let prices ← match field with
    | some j => Except.ok j
    | none => Except.error "json.loads raised"
  let items ← pyIter prices
  let strs ← mapTiers items
  .ok (pyJoin ", " strs)

/-- `price_data` for one row: the `try` result, or the `except`
fallback literal. -/
def priceDataOf (field : Option Json) : String :=
  match priceChain field with
  | .ok s => s
  | .error _ => "No info"

/-- The whole `try` body for the attributes cell: `json.loads`,
`extra['attributes'].items()`, one `f"{k}:{v}"` per entry, and
`', '.join`. -/
def charChain (field : Option Json) : Except String String := do
  let extra ← match field with
    | some j => Except.ok j
    | none => Except.error "json.loads raised"
  let attrs ← pyGetItemStr extra "attributes"
  let entries ← pyItems attrs
  .ok (pyJoin ", " (entries.map fun kv => kv.1 ++ ":" ++ pythonStr kv.2))

/-- `char_data` for one row: the `try` result, or the `except`
fallback literal. -/
def charDataOf (field : Option Json) : String :=
  match charChain field with
  | .ok s => s
  | .error _ => "No info"

/-- The nine leading cells of a rendered row line, each followed by its
column separator. -/
def rowCellsText (r : Row) : String :=
  "|" ++ sqlCellStr r.lcsc ++ "|" ++ sqlCellStr r.category_id
    ++ "|" ++ sqlCellStr r.manufacturer_id ++ "|" ++ sqlCellStr r.mfr
    ++ "|" ++ sqlCellStr r.basic ++ "|" ++ sqlCellStr r.preferred
    ++ "|" ++ sqlCellStr r.descr ++ "|" ++ sqlCellStr r.package
    ++ "|" ++ sqlCellStr r.stock ++ "|"

/-- One line appended to `lines` for a fetched row. -/
def renderRow (r : Row) : String :=
  rowCellsText r ++ priceDataOf r.price ++ "|" ++ charDataOf r.extra ++ "|"

/-- First header line of the `search_parts` output. -/
def headerRow1 : String :=
  "|Part Number|Category ID|Manufacturer ID|Manufacturer PN|Basic Parts|Preferred Parts|Description|Package|Stock|Price|Attributes|"

/-- Second (separator) header line. -/
def headerRow2 : String :=
  "|--|--|--|--|--|--|--|--|--|--|--|"

/-- The fixed header literal of the returned table. -/
def headerText : String :=
  "|Part Number|Category ID|Manufacturer ID|Manufacturer PN|Basic Parts|Preferred Parts|Description|Package|Stock|Price|Attributes|\n|--|--|--|--|--|--|--|--|--|--|--|\n"

/-- Assembly of the returned string from the fetched rows. -/
def renderRows (rows : List Row) : String :=
  headerText ++ pyJoin "\n" (rows.map renderRow)

/-- The whole `search_parts` operation over an abstract query executor:
compile the filter, execute the one query, render the rows.  The
return type is `String`: this operation has no `None` result. -/
def search_parts (q : SearchQuery) (exec : String → List SqlValue → List Row) : String :=
  renderRows (exec (queryText q) (queryParams q))

/-! ## Lookup operation `get_datasheet_url`

The store interaction is abstracted as the outcome of
`conn.execute(...).fetchone()`: an infrastructure failure (`.error`),
no matching row (`.ok none`), or a matching row carrying its
`datasheet` column, which is itself nullable (`.ok (some d)`).
A fetched one-column row is a non-empty tuple and hence truthy in
`if result:` even when the column value is `None`. -/
def get_datasheet_url (store : Except String (Option (Option String))) :
    Except String (Option String) :=
  match store with
  | .error e => .error e
  | .ok none => .ok none
  | .ok (some d) => .ok d

/-- `get_category`, same store abstraction: the row carries
`(category, subcategory)`.  There is no `try` block: a store failure
propagates. -/
def get_category (store : Except String (Option (String × String))) :
    Except String (Option String) :=
  match store with
  | .error e => .error e
  | .ok none => .ok none
  | .ok (some cs) =>
      .ok (some ("Category: " ++ cs.1 ++ ", Subcategory: " ++ cs.2))

/-! ## Image selector (`get_part_image`) -/

/-- Split a character list at the first occurrence of `c`: the part
before it, and (when found) the part after it. -/
def splitFirst (c : Char) : List Char → List Char × Option (List Char)
  | [] => ([], none)
  | x :: xs =>
      if x = c then ([], some xs)
      else
        let r := splitFirst c xs
        (x :: r.1, r.2)

/-- A valid URL scheme before the first colon: first character
alphabetic, the rest alphanumeric or `+`, `-`, `.` (as
`urllib.parse.urlsplit` checks). -/
def validScheme : List Char → Bool
  | [] => false
  | x :: xs => x.isAlpha && xs.all fun c => c.isAlphanum || c = '+' || c = '-' || c = '.'

/-- Drop a `//netloc` head: the authority extends to the next `/`, `?`
or `#`, which stays part of the remainder. -/
def dropNetloc : List Char → List Char
  | '/' :: '/' :: rest => rest.dropWhile fun c => c ≠ '/' && c ≠ '?' && c ≠ '#'
  | l => l

/-- Model of `urllib.parse.urlparse(url).path`: strip the fragment, a
valid scheme, the authority, and the query. -/
def urlPath (url : String) : String :=
  let l := (splitFirst '#' url.data).1
  let l := match splitFirst ':' l with
    | (before, some after) => if validScheme before then after else l
    | (_, none) => l
  let l := dropNetloc l
  let l := (splitFirst '?' l).1
  String.mk l

/-- Last index of `c` in `l`, if any. -/
def lastIndexOf (c : Char) (l : List Char) : Option Nat :=
  match l.reverse.findIdx? (· = c) with
  | some i => some (l.length - 1 - i)
  | none => none

/-- Model of `os.path.splitext(p)[1]`: the extension starting at the
last dot, provided that dot comes after the last path separator and the
base name has a non-dot character before it; empty otherwise. -/
def splitextExt (p : List Char) : List Char :=
  match lastIndexOf '.' p with
  | none => []
  | some d =>
      let s : Int := match lastIndexOf '/' p with
        | some i => (i : Int)
        | none => -1
      if (d : Int) > s then
        let base := (p.take d).drop (s + 1).toNat
        if base.any (fun c => c ≠ '.') then p.drop d else []
      else []

/-- `os.path.splitext(urlparse(url).path)[1].replace('.', '')`. -/
def rawExt (url : String) : String :=
  String.mk ((splitextExt (urlPath url).data).filter fun c => c ≠ '.')

/-- The format tag after the one alias normalization
`if ext == 'jpg': ext = 'jpeg'`. -/
def formatTag (url : String) : String :=
  let e := rawExt url
  if e = "jpg" then "jpeg" else e

/-- `url = list(images.values())[int(len(images) / 2)]` applied to the
parsed `extra` document: `['images']`, `[0]`, `.values()`, `len`, and
the middle index (`int()` on a non-negative half is floor, i.e. `Nat`
division). -/
def selectUrl (e : Json) : Except String Json := do
  let images0 ← pyGetItemStr e "images"
  let images ← pyIndex images0 0
  let vals ← pyValues images
  let n ← pyLen images
  pyListIndex vals (n / 2)

/-- The fetched image: raw bytes plus the format tag. -/
structure ImageFile where
  data : List Nat
  format : String
deriving DecidableEq

/-- The body of the `try` block after a row was fetched: parse `extra`,
select the URL (which must be a string for `urlparse`), derive the
format tag, perform the one outbound fetch. -/
def imageChain (extraField : Option Json)
    (fetch : String → Except String (List Nat)) : Except String ImageFile := do
  let e ← match extraField with
    | some j => Except.ok j
    | none => Except.error "json.loads raised"
  let url ← selectUrl e
  let urlStr ← match url with
    | .str s => Except.ok s
    | _ => Except.error "TypeError: urlparse expects a string"
  let ext := formatTag urlStr
  let data ← fetch urlStr
  .ok ⟨data, ext⟩

/-- The whole `get_part_image` operation: the store lookup and the
chain run inside `try`; an absent row returns `None` directly (no
exception, nothing printed); any exception is caught, its message
printed to stderr, and `None` returned.  The result pair is (returned
value, diagnostic written to the side channel). -/
def get_part_image (store : Except String (Option (Option Json)))
    (fetch : String → Except String (List Nat)) :
    Option ImageFile × Option String :=
  match store with
  | .error e => (none, some e)
  | .ok none => (none, none)
  | .ok (some extraField) =>
      match imageChain extraField fetch with
      | .ok img => (some img, none)
      | .error e => (none, some e)

/-! ## Spec-shaped descriptions used to state the rendering claims -/

/-- A price tier the loop body accepts without raising: a dict holding
all of the keys `qFrom`, `qTo` and `price`. -/
def hasTierKeys (t : Json) : Bool :=
  match t with
  | .obj kvs =>
      (List.lookup "qFrom" kvs).isSome
        && ((List.lookup "qTo" kvs).isSome && (List.lookup "price" kvs).isSome)
  | _ => false

/-- The spec's per-tier text `<qFrom>-<qTo> <price>USD/pc`, with a null
bound rendered as the empty string. -/
def tierText (t : Json) : String :=
  match t with
  | .obj kvs =>
      pythonStr (noneToEmpty ((List.lookup "qFrom" kvs).getD .null)) ++ "-"
        ++ pythonStr (noneToEmpty ((List.lookup "qTo" kvs).getD .null)) ++ " "
        ++ pythonStr ((List.lookup "price" kvs).getD .null) ++ "USD/pc"
  | _ => ""

/-! ## Helper lemmas -/

theorem countQ_append (s t : String) : countQ (s ++ t) = countQ s + countQ t := by
  simp [countQ, String.data_append, List.count_append]

theorem countQ_pyJoin_and (l : List String) :
    countQ (pyJoin " AND " l) = (l.map countQ).sum := by
  induction l with
  | nil => rfl
  | cons x xs ih =>
      cases xs with
      | nil => simp [pyJoin]
      | cons y ys =>
          have hand : countQ " AND " = 0 := by decide
          have h1 : pyJoin " AND " (x :: y :: ys) = x ++ " AND " ++ pyJoin " AND " (y :: ys) := rfl
          rw [h1, countQ_append, countQ_append, hand, ih]
          simp

/-! ## C10 -/

/-- C10: `get_datasheet_url` returns the not-found signal `None` both
when no component row matches and when a matching row has a null
`datasheet` column, and the two results are identical, hence
indistinguishable to the caller. -/
theorem get_datasheet_url_null_indistinguishable :
    get_datasheet_url (.ok none) = .ok none
    ∧ get_datasheet_url (.ok (some none)) = .ok none
    ∧ get_datasheet_url (.ok none) = get_datasheet_url (.ok (some none)) :=
  ⟨rfl, rfl, rfl⟩

/-! ## C9 -/

/-- C9: `search_parts` always returns a string beginning with the fixed
two-line header (column-name row, then separator row), and with zero
matching rows it returns exactly the header; its result type in the
embedding is `String`, so it never produces the `None` signal of the
lookup operations. -/
theorem search_parts_header (q : SearchQuery)
    (exec : String → List SqlValue → List Row) :
    (∃ tail, search_parts q exec = headerText ++ tail)
    ∧ headerText = headerRow1 ++ "\n" ++ headerRow2 ++ "\n"
    ∧ (exec (queryText q) (queryParams q) = [] → search_parts q exec = headerText) := by
  refine ⟨⟨pyJoin "\n" ((exec (queryText q) (queryParams q)).map renderRow), rfl⟩, rfl, ?_⟩
  intro h
  simp [search_parts, renderRows, h, pyJoin]

/-- Witness for C9: an executor returning zero rows yields exactly the
header. -/
theorem search_parts_header_witness :
    search_parts ⟨1, none, none, none, none, none, none⟩ (fun _ _ => []) = headerText :=
  (search_parts_header ⟨1, none, none, none, none, none, none⟩ (fun _ _ => [])).2.2 rfl

/-! ## C8 -/

/-- C8: the format tag is the URL path's file extension with exactly
one normalization applied: `jpg` becomes `jpeg`, every other extension
passes through unchanged. -/
theorem formatTag_normalization (url : String) :
    (rawExt url = "jpg" → formatTag url = "jpeg")
    ∧ (rawExt url ≠ "jpg" → formatTag url = rawExt url) := by
  constructor <;> intro h <;> simp [formatTag, h]

set_option maxRecDepth 4000 in
/-- Witness for C8: a `.jpg` URL tags as `jpeg`, a `.png` URL stays
`png`. -/
theorem formatTag_normalization_witness :
    formatTag "http://x.com/a.jpg" = "jpeg" ∧ formatTag "http://x.com/a.png" = "png" :=
  ⟨(formatTag_normalization "http://x.com/a.jpg").1 (by decide),
   (formatTag_normalization "http://x.com/a.png").2 (by decide)⟩

/-! ## C7 -/

/-- C7 counterexample: when the store finds no component row,
`get_part_image` returns the not-found signal but writes nothing to the
diagnostic side channel, contrary to the claim that every failure in
the chain (absent row included) logs its diagnostic. -/
theorem get_part_image_absent_row_no_log :
    get_part_image (.ok none) (fun _ => .error "unreachable") = (none, none) :=
  rfl

/-- C7 amended: every exception raised in the `get_part_image` chain
(store failure, malformed metadata, fetch error) is caught, logged to
the side channel, and converted to the not-found signal, while an
absent row yields not-found directly with no diagnostic; the selector
never propagates a failure, whereas the other operations propagate
store failures uncaught. -/
theorem get_part_image_errors_folded (store : Except String (Option (Option Json)))
    (fetch : String → Except String (List Nat)) :
    (∀ err, store = .error err → get_part_image store fetch = (none, some err))
    ∧ (store = .ok none → get_part_image store fetch = (none, none))
    ∧ (∀ f err, store = .ok (some f) → imageChain f fetch = .error err →
        get_part_image store fetch = (none, some err))
    ∧ (∀ err, get_datasheet_url (.error err) = .error err)
    ∧ (∀ err, get_category (.error err) = .error err)
    ∧ ((get_part_image store fetch).1 = none
        ∨ ∃ img, get_part_image store fetch = (some img, none)) := by
  refine ⟨?_, ?_, ?_, fun _ => rfl, fun _ => rfl, ?_⟩
  · intro err h; subst h; rfl
  · intro h; subst h; rfl
  · intro f err h he; subst h; simp [get_part_image, he]
  · cases store with
    | error e => left; rfl
    | ok r =>
        cases r with
        | none => left; rfl
        | some f =>
            cases hc : imageChain f fetch with
            | error e => left; simp [get_part_image, hc]
            | ok img => right; exact ⟨img, by simp [get_part_image, hc]⟩

/-- Witness for C7: a store failure is folded into not-found with the
failure logged by the image selector, and propagated uncaught by
`get_datasheet_url`. -/
theorem get_part_image_errors_folded_witness :
    get_part_image (.error "store failed") (fun _ => .error "net") = (none, some "store failed")
    ∧ get_datasheet_url (.error "store failed") = .error "store failed" :=
  ⟨(get_part_image_errors_folded (.error "store failed") (fun _ => .error "net")).1
      "store failed" rfl,
   (get_part_image_errors_folded (.error "store failed")
      (fun _ => .error "net")).2.2.2.1 "store failed"⟩

/-! ## C5 -/

/-- C5: when the image manifest mapping `extra['images'][0]` has `n`
entries, the selector takes the value at 0-based position `n / 2`
(floor) of the value sequence; with `n = 0` the indexing fails and
`get_part_image` returns the not-found signal. -/
theorem selectUrl_middle (e imgs : Json) (kvs : List (String × Json))
    (h1 : pyGetItemStr e "images" = .ok imgs)
    (h2 : pyIndex imgs 0 = .ok (.obj kvs))
    (h3 : (kvs.map Prod.fst).Nodup) :
    selectUrl e = pyListIndex (kvs.map Prod.snd) (kvs.length / 2)
    ∧ (kvs ≠ [] → ∃ v, (kvs.map Prod.snd).get? (kvs.length / 2) = some v
        ∧ selectUrl e = .ok v)
    ∧ (kvs = [] → ∀ fetch, (get_part_image (.ok (some (some e))) fetch).1 = none) := by
  have hsel : selectUrl e = pyListIndex (kvs.map Prod.snd) (kvs.length / 2) := by
    simp [selectUrl, Bind.bind, Except.bind, h1, h2, pyValues, pyLen]
  refine ⟨hsel, ?_, ?_⟩
  · intro hne
    have hlt : kvs.length / 2 < kvs.length :=
      Nat.div_lt_self (List.length_pos.mpr hne) (by omega)
    have hlt' : kvs.length / 2 < (kvs.map Prod.snd).length := by
      simpa using hlt
    have hget : (kvs.map Prod.snd).get? (kvs.length / 2)
        = some ((kvs.map Prod.snd).get ⟨kvs.length / 2, hlt'⟩) :=
      List.get?_eq_get hlt'
    refine ⟨(kvs.map Prod.snd).get ⟨kvs.length / 2, hlt'⟩, hget, ?_⟩
    rw [hsel]
    simp only [pyListIndex, hget]
  · intro hnil fetch
    subst hnil
    have hidx : selectUrl e = .error "IndexError: list index out of range" := by
      rw [hsel]; rfl
    simp [get_part_image, imageChain, Bind.bind, Except.bind, hidx]

/-- Witness for C5: a three-entry manifest selects the entry at index
1, a one-entry manifest the entry at index 0, and an empty manifest
yields not-found. -/
theorem selectUrl_middle_witness :
    selectUrl (.obj [("images", .arr [.obj
        [("s", .str "u1"), ("m", .str "u2"), ("l", .str "u3")]])]) = .ok (.str "u2")
    ∧ selectUrl (.obj [("images", .arr [.obj [("s", .str "u1")]])]) = .ok (.str "u1")
    ∧ (get_part_image (.ok (some (some (.obj [("images", .arr [.obj []])]))))
        (fun _ => .error "net")).1 = none := by
  refine ⟨?_, ?_, ?_⟩
  · exact (selectUrl_middle
      (.obj [("images", .arr [.obj [("s", .str "u1"), ("m", .str "u2"), ("l", .str "u3")]])])
      (.arr [.obj [("s", .str "u1"), ("m", .str "u2"), ("l", .str "u3")]])
      [("s", .str "u1"), ("m", .str "u2"), ("l", .str "u3")]
      rfl rfl (by decide)).1.trans rfl
  · exact (selectUrl_middle
      (.obj [("images", .arr [.obj [("s", .str "u1")]])])
      (.arr [.obj [("s", .str "u1")]])
      [("s", .str "u1")] rfl rfl (by decide)).1.trans rfl
  · exact (selectUrl_middle (.obj [("images", .arr [.obj []])])
      (.arr [.obj []]) [] rfl rfl (by decide)).2.2 rfl _

/-! ## C6 -/

/-- C6: attribute rendering produces one `key:value` entry per mapping
entry of `extra.attributes`, joined with a comma and space, in the
mapping's own order; the concrete mapping of the spec renders as
`Resistance:10k, Tolerance:1%`. -/
theorem charData_attributes (kvs attrs : List (String × Json))
    (h : List.lookup "attributes" kvs = some (.obj attrs)) :
    charDataOf (some (.obj kvs))
      = pyJoin ", " (attrs.map fun kv => kv.1 ++ ":" ++ pythonStr kv.2)
    ∧ charDataOf (some (.obj [("attributes", .obj
        [("Resistance", .str "10k"), ("Tolerance", .str "1%")])]))
      = "Resistance:10k, Tolerance:1%" := by
  constructor
  · simp [charDataOf, charChain, Bind.bind, Except.bind, pyGetItemStr, h, pyItems]
  · rfl

/-- Witness for C6: the spec's example mapping, rendered through the
general statement. -/
theorem charData_attributes_witness :
    charDataOf (some (.obj [("attributes", .obj
        [("Resistance", .str "10k"), ("Tolerance", .str "1%")])]))
      = "Resistance:10k, Tolerance:1%" :=
  (charData_attributes [("attributes", .obj
      [("Resistance", .str "10k"), ("Tolerance", .str "1%")])]
    [("Resistance", .str "10k"), ("Tolerance", .str "1%")] rfl).2

/-! ## C4 -/

theorem renderTier_ok (t : Json) (h : hasTierKeys t = true) :
    renderTier t = .ok (tierText t) := by
  cases t with
  | obj kvs =>
      simp only [hasTierKeys, Bool.and_eq_true] at h
      obtain ⟨h1, h2, h3⟩ := h
      obtain ⟨qf, hqf⟩ := Option.isSome_iff_exists.mp h1
      obtain ⟨qt, hqt⟩ := Option.isSome_iff_exists.mp h2
      obtain ⟨pr, hpr⟩ := Option.isSome_iff_exists.mp h3
      simp [renderTier, tierText, Bind.bind, Except.bind, pyGetItemStr, hqf, hqt, hpr]
  | null => simp [hasTierKeys] at h
  | bool b => simp [hasTierKeys] at h
  | num s => simp [hasTierKeys] at h
  | str s => simp [hasTierKeys] at h
  | arr xs => simp [hasTierKeys] at h

theorem mapTiers_ok (ts : List Json) (h : ∀ t ∈ ts, hasTierKeys t = true) :
    mapTiers ts = .ok (ts.map tierText) := by
  induction ts with
  | nil => rfl
  | cons t ts ih =>
      have ht : renderTier t = .ok (tierText t) := renderTier_ok t (h t (by simp))
      have hts : mapTiers ts = .ok (ts.map tierText) :=
        ih fun x hx => h x (by simp [hx])
      simp [mapTiers, Bind.bind, Except.bind, ht, hts]

/-- C4: a well-formed tier sequence (each tier a mapping holding the
keys `qFrom`, `qTo` and `price`) renders as one
`<qFrom>-<qTo> <price>USD/pc` string per tier, null bounds rendered as
empty strings, joined with comma and space; the tier
`qFrom = null, qTo = 10, price = 1.5` renders as `-10 1.5USD/pc`, and
rendering the same sequence twice yields identical text (the renderer
is a pure function). -/
theorem price_render_tiers (ts : List Json) (h : ∀ t ∈ ts, hasTierKeys t = true) :
    priceDataOf (some (.arr ts)) = pyJoin ", " (ts.map tierText)
    ∧ priceDataOf (some (.arr [.obj
        [("qFrom", .null), ("qTo", .num "10"), ("price", .num "1.5")]]))
      = "-10 1.5USD/pc"
    ∧ priceDataOf (some (.arr ts)) = priceDataOf (some (.arr ts)) := by
  refine ⟨?_, rfl, rfl⟩
  simp [priceDataOf, priceChain, Bind.bind, Except.bind, pyIter, mapTiers_ok ts h]

/-- Witness for C4: a concrete two-tier sequence with an open lower
bound on the first tier and an open upper bound on the second. -/
theorem price_render_tiers_witness :
    priceDataOf (some (.arr
      [.obj [("qFrom", .null), ("qTo", .num "10"), ("price", .num "1.5")],
       .obj [("qFrom", .num "11"), ("qTo", .null), ("price", .num "1.2")]]))
      = "-10 1.5USD/pc, 11- 1.2USD/pc" := by
  have h := price_render_tiers
    [.obj [("qFrom", .null), ("qTo", .num "10"), ("price", .num "1.5")],
     .obj [("qFrom", .num "11"), ("qTo", .null), ("price", .num "1.2")]]
    (by decide)
  exact h.1.trans rfl

/-! ## C3 -/

/-- C3 counterexample: a price field of the wrong type that is an empty
JSON string parses, iterates vacuously, and renders as the empty price
cell, not as the literal `No info` the claim requires for a
wrongly-typed field. -/
theorem price_wrong_type_empty_cell :
    priceDataOf (some (.str "")) = "" ∧ ("" : String) ≠ "No info" :=
  ⟨rfl, by decide⟩

/-- C3 amended: whenever the price conversion of a row raises
(malformed JSON, missing key, a wrong type that fails during iteration
or key access), the price cell renders as the literal `No info`, the
attributes cell of the same row is still computed from its own `extra`
field alone, and rows are rendered independently of one another —
except that a wrongly-typed price value that is an empty iterable
(empty string or empty mapping) renders as an empty price cell instead
of `No info`. -/
theorem price_failure_no_info (r : Row) (e : String)
    (h : priceChain r.price = .error e) :
    priceDataOf r.price = "No info"
    ∧ renderRow r = rowCellsText r ++ "No info" ++ "|" ++ charDataOf r.extra ++ "|"
    ∧ (∀ rows, renderRows rows = headerText ++ pyJoin "\n" (rows.map renderRow)) := by
  have h0 : priceDataOf r.price = "No info" := by simp [priceDataOf, h]
  exact ⟨h0, by rw [renderRow, h0], fun rows => rfl⟩

/-- Witness for C3: a row whose price column holds the malformed plain
JSON string `oops` renders `No info` in the price cell while its
attributes cell renders normally. -/
theorem price_failure_no_info_witness :
    renderRow ⟨.int 1, .int 5, .int 7, .text "X123", .int 1, .int 0,
        .text "res", .text "0603", .int 42, some (.str "oops"),
        some (.obj [("attributes", .obj [("Resistance", .str "10k")])])⟩
      = "|1|5|7|X123|1|0|res|0603|42|No info|Resistance:10k|" := by
  have h := price_failure_no_info
    ⟨.int 1, .int 5, .int 7, .text "X123", .int 1, .int 0,
      .text "res", .text "0603", .int 42, some (.str "oops"),
      some (.obj [("attributes", .obj [("Resistance", .str "10k")])])⟩
    "TypeError: value is not subscriptable by a string key" rfl
  exact h.2.1.trans rfl

/-! ## Per-field lemmas about the filter compiler -/

theorem midFrag_clause (x : Option Int) :
    (midFrag x).1 = if x.isSome then ["manufacturer_id=?"] else [] := by
  cases x <;> rfl

theorem pnFrag_clause (x : Option String) :
    (pnFrag x).1 = if optTruthyStr x then ["mfr LIKE ?"] else [] := by
  cases x with
  | none => rfl
  | some s => by_cases hs : s != "" <;> simp [pnFrag, optTruthyStr, hs]

theorem descFrag_clause (x : Option String) :
    (descFrag x).1 = if optTruthyStr x then ["description LIKE ?"] else [] := by
  cases x with
  | none => rfl
  | some s => by_cases hs : s != "" <;> simp [descFrag, optTruthyStr, hs]

theorem pkgFrag_clause (x : Option String) :
    (pkgFrag x).1 = if optTruthyStr x then ["package=?"] else [] := by
  cases x with
  | none => rfl
  | some s => by_cases hs : s != "" <;> simp [pkgFrag, optTruthyStr, hs]

theorem basicFrag_clause (x : Option Bool) :
    (basicFrag x).1 = match x with
      | some b => ["basic=" ++ (if b then "1" else "0")]
      | none => [] := by
  cases x <;> rfl

theorem prefFrag_clause (x : Option Bool) :
    (prefFrag x).1 = match x with
      | some b => ["preferred=" ++ (if b then "1" else "0")]
      | none => [] := by
  cases x <;> rfl

theorem midFrag_len (x : Option Int) :
    (midFrag x).1.length = if x.isSome then 1 else 0 := by
  cases x <;> rfl

theorem pnFrag_len (x : Option String) :
    (pnFrag x).1.length = if optTruthyStr x then 1 else 0 := by
  by_cases hs : optTruthyStr x
  · simp [pnFrag_clause, hs]
  · simp [pnFrag_clause, hs]

theorem descFrag_len (x : Option String) :
    (descFrag x).1.length = if optTruthyStr x then 1 else 0 := by
  by_cases hs : optTruthyStr x
  · simp [descFrag_clause, hs]
  · simp [descFrag_clause, hs]

theorem pkgFrag_len (x : Option String) :
    (pkgFrag x).1.length = if optTruthyStr x then 1 else 0 := by
  by_cases hs : optTruthyStr x
  · simp [pkgFrag_clause, hs]
  · simp [pkgFrag_clause, hs]

theorem basicFrag_len (x : Option Bool) :
    (basicFrag x).1.length = if x.isSome then 1 else 0 := by
  cases x <;> rfl

theorem prefFrag_len (x : Option Bool) :
    (prefFrag x).1.length = if x.isSome then 1 else 0 := by
  cases x <;> rfl

theorem midFrag_count (x : Option Int) :
    ((midFrag x).1.map countQ).sum = (midFrag x).2.length := by
  cases x <;> rfl

theorem pnFrag_count (x : Option String) :
    ((pnFrag x).1.map countQ).sum = (pnFrag x).2.length := by
  cases x with
  | none => rfl
  | some s =>
      by_cases hs : s != ""
      · simp [pnFrag, hs]
        decide
      · simp [pnFrag, hs]

theorem descFrag_count (x : Option String) :
    ((descFrag x).1.map countQ).sum = (descFrag x).2.length := by
  cases x with
  | none => rfl
  | some s =>
      by_cases hs : s != ""
      · simp [descFrag, hs]
        decide
      · simp [descFrag, hs]

theorem pkgFrag_count (x : Option String) :
    ((pkgFrag x).1.map countQ).sum = (pkgFrag x).2.length := by
  cases x with
  | none => rfl
  | some s =>
      by_cases hs : s != ""
      · simp [pkgFrag, hs]
        decide
      · simp [pkgFrag, hs]

theorem basicFrag_count (x : Option Bool) :
    ((basicFrag x).1.map countQ).sum = (basicFrag x).2.length := by
  cases x with
  | none => rfl
  | some b => cases b <;> decide

theorem prefFrag_count (x : Option Bool) :
    ((prefFrag x).1.map countQ).sum = (prefFrag x).2.length := by
  cases x with
  | none => rfl
  | some b => cases b <;> decide

theorem basicFrag_params (x : Option Bool) : (basicFrag x).2 = [] := by
  cases x <;> rfl

theorem prefFrag_params (x : Option Bool) : (prefFrag x).2 = [] := by
  cases x <;> rfl

theorem midFrag_mem {x : Option Int} {c : String} (h : c ∈ (midFrag x).1) :
    c = "manufacturer_id=?" := by
  cases x <;> simp_all [midFrag]

theorem pnFrag_mem {x : Option String} {c : String} (h : c ∈ (pnFrag x).1) :
    c = "mfr LIKE ?" := by
  cases x with
  | none => simp [pnFrag] at h
  | some s =>
      by_cases hs : s != ""
      · simpa [pnFrag, hs] using h
      · simp [pnFrag, hs] at h

theorem descFrag_mem {x : Option String} {c : String} (h : c ∈ (descFrag x).1) :
    c = "description LIKE ?" := by
  cases x with
  | none => simp [descFrag] at h
  | some s =>
      by_cases hs : s != ""
      · simpa [descFrag, hs] using h
      · simp [descFrag, hs] at h

theorem pkgFrag_mem {x : Option String} {c : String} (h : c ∈ (pkgFrag x).1) :
    c = "package=?" := by
  cases x with
  | none => simp [pkgFrag] at h
  | some s =>
      by_cases hs : s != ""
      · simpa [pkgFrag, hs] using h
      · simp [pkgFrag, hs] at h

theorem basicFrag_mem {x : Option Bool} {c : String} (h : c ∈ (basicFrag x).1) :
    c = "basic=1" ∨ c = "basic=0" := by
  cases x with
  | none => simp [basicFrag] at h
  | some b =>
      cases b with
      | false =>
          have h2 : c = "basic=" ++ "0" := by simpa [basicFrag] using h
          right; rw [h2]; rfl
      | true =>
          have h2 : c = "basic=" ++ "1" := by simpa [basicFrag] using h
          left; rw [h2]; rfl

theorem prefFrag_mem {x : Option Bool} {c : String} (h : c ∈ (prefFrag x).1) :
    c = "preferred=1" ∨ c = "preferred=0" := by
  cases x with
  | none => simp [prefFrag] at h
  | some b =>
      cases b with
      | false =>
          have h2 : c = "preferred=" ++ "0" := by simpa [prefFrag] using h
          right; rw [h2]; rfl
      | true =>
          have h2 : c = "preferred=" ++ "1" := by simpa [prefFrag] using h
          left; rw [h2]; rfl

/-! ## C1 -/

/-- C1 counterexample: `manufacturer_pn` set to the empty string is
present (not the `None` sentinel), yet the compiler adds no predicate
for it: the WHERE clause list stays at the one `category_id`
predicate instead of the two the claim requires. -/
theorem whereClauses_empty_string_skipped :
    whereClauses ⟨1, none, some "", none, none, none, none⟩ = ["category_id=?"]
    ∧ (whereClauses ⟨1, none, some "", none, none, none, none⟩).length = 1
    ∧ (some "" : Option String) ≠ (none : Option String) :=
  ⟨rfl, rfl, by decide⟩

/-- C1 amended: the WHERE clause always contains the `category_id`
equality predicate first, plus exactly one predicate per optional field
the compiler treats as set (present for `manufacturer_id` and the two
booleans; present and non-empty for the three text fields, since the
code tests Python truthiness); all predicates are joined with ` AND `,
and no emittable predicate contains an `OR`. -/
theorem whereClauses_count_and_join (q : SearchQuery) :
    (whereClauses q).length = 1 + numSetCode q
    ∧ (whereClauses q).head? = some "category_id=?"
    ∧ queryText q = sqlSelectHead ++ pyJoin " AND " (whereClauses q)
    ∧ (∀ c ∈ whereClauses q, c ∈ clauseUniverse)
    ∧ (∀ c ∈ clauseUniverse, ¬ List.IsInfix "OR".data c.data) := by
  refine ⟨?_, ?_, rfl, ?_, by decide⟩
  · simp only [whereClauses, List.length_append, List.length_singleton,
      midFrag_len, pnFrag_len, descFrag_len, pkgFrag_len, basicFrag_len,
      prefFrag_len, numSetCode]
    omega
  · simp [whereClauses]
  · intro c hc
    simp only [whereClauses, List.mem_append, List.mem_singleton] at hc
    rcases hc with ((((((rfl | h) | h) | h) | h) | h) | h)
    · decide
    · rw [midFrag_mem h]; decide
    · rw [pnFrag_mem h]; decide
    · rw [descFrag_mem h]; decide
    · rw [pkgFrag_mem h]; decide
    · rcases basicFrag_mem h with rfl | rfl <;> decide
    · rcases prefFrag_mem h with rfl | rfl <;> decide

/-- Witness for C1: a filter with `manufacturer_id`, `package` and
`is_basic_parts` set compiles to four AND-joined predicates, headed by
the `category_id` one. -/
theorem whereClauses_count_and_join_witness :
    (whereClauses ⟨5, some 7, none, none, some "0603", some true, none⟩).length = 4
    ∧ "category_id=?" ∈ clauseUniverse := by
  have h := whereClauses_count_and_join ⟨5, some 7, none, none, some "0603", some true, none⟩
  exact ⟨by rw [h.1]; rfl,
    h.2.2.2.1 "category_id=?" (by decide)⟩

/-! ## C2 -/

/-- C2: the generated query text is a function of the query mask alone
(which optional fields are taken, plus the two boolean values), so no
user-supplied scalar value is ever interpolated into it; the number of
`?` placeholders equals the length of the parameter list; the
parameter list consists exactly of the set non-boolean field values in
field order; and a set boolean field is rendered into the text as the
literal clause `basic=1`/`basic=0` (resp. `preferred=...`) while
contributing nothing to the parameter list. -/
theorem queryParams_bound (q : SearchQuery) :
    queryText q = queryTextOfMask (maskOf q)
    ∧ countQ (queryText q) = (queryParams q).length
    ∧ queryParams q = [SqlValue.int q.category_id]
        ++ (midFrag q.manufacturer_id).2 ++ (pnFrag q.manufacturer_pn).2
        ++ (descFrag q.description).2 ++ (pkgFrag q.package).2
    ∧ (basicFrag q.is_basic_parts).2 = [] ∧ (prefFrag q.is_preferred_parts).2 = []
    ∧ (q.is_basic_parts = some true → "basic=1" ∈ whereClauses q)
    ∧ (q.is_basic_parts = some false → "basic=0" ∈ whereClauses q)
    ∧ (q.is_preferred_parts = some true → "preferred=1" ∈ whereClauses q)
    ∧ (q.is_preferred_parts = some false → "preferred=0" ∈ whereClauses q) := by
  refine ⟨?_, ?_, ?_, basicFrag_params _, prefFrag_params _, ?_, ?_, ?_, ?_⟩
  · simp only [queryText, queryTextOfMask, maskOf, whereClauses,
      midFrag_clause, pnFrag_clause, descFrag_clause, pkgFrag_clause,
      basicFrag_clause, prefFrag_clause]
  · have hhead : countQ sqlSelectHead = 0 := by decide
    have hcat : countQ "category_id=?" = 1 := by decide
    rw [queryText, countQ_append, countQ_pyJoin_and, hhead]
    simp only [whereClauses, queryParams, List.map_append, List.sum_append,
      List.length_append, List.map_cons, List.map_nil, List.sum_cons,
      List.sum_nil, List.length_cons, List.length_nil, hcat,
      midFrag_count, pnFrag_count, descFrag_count, pkgFrag_count,
      basicFrag_count, prefFrag_count]
    omega
  · simp [queryParams, basicFrag_params, prefFrag_params]
  · intro h; simp [whereClauses, h, basicFrag]
  · intro h; simp [whereClauses, h, basicFrag]
  · intro h; simp [whereClauses, h, prefFrag]
  · intro h; simp [whereClauses, h, prefFrag]

/-- Witness for C2: a concrete filter with an id, a pattern, a package
and a boolean set: two placeholders beyond `category_id`, three bound
parameters, a literal `basic=1`, and text equal to its mask's text. -/
theorem queryParams_bound_witness :
    queryText ⟨5, some 7, none, none, some "0603", some true, none⟩
      = queryTextOfMask (maskOf ⟨5, some 7, none, none, some "0603", some true, none⟩)
    ∧ countQ (queryText ⟨5, some 7, none, none, some "0603", some true, none⟩)
      = (queryParams ⟨5, some 7, none, none, some "0603", some true, none⟩).length
    ∧ "basic=1" ∈ whereClauses ⟨5, some 7, none, none, some "0603", some true, none⟩ := by
  have h := queryParams_bound ⟨5, some 7, none, none, some "0603", some true, none⟩
  exact ⟨h.1, h.2.1, h.2.2.2.2.2.1 rfl⟩

end JlcpcbParts
